import Mathlib

/-!
Verification of the operation-router layer of `src/07_mcp_server/mcp_server.py`
(the MCP adapter exposing Qdrant vector-store operations).

The embedding is shallow:

* Python JSON-compatible values become the inductive `Json` (numbers are
  modelled as `Rat`, which represents every decimal literal appearing in the
  code and the claims exactly; no floating-point arithmetic is performed by
  the router, values are only marshalled).
* A `types.TextContent` response becomes `Resp`: `Resp.jsonText j` stands for
  `TextContent(text=json.dumps(j, indent=2))` (field order of `j` is the
  insertion order of the Python dict literal) and `Resp.plainText t` stands
  for `TextContent(text=t)`.
* The Qdrant client is the external collaborator; it is modelled as a record
  `Store σ` of operations over an abstract state `σ`, each returning
  `Except String` — `Except.error m` stands for a raised exception whose
  `str()` is `m`.  Python's exception propagation becomes the `Except` monad;
  the `try/except` wrappers in the handlers become `match` on the result.
* `arguments["k"]` on a missing key raises `KeyError('k')`, whose `str()` is
  `"'k'"`; this is the error produced by `getArg`/`Json.getKey`.  Messages of
  `TypeError`s raised on non-dict / non-list values are approximated (no
  claim depends on their exact text).
* `asyncio.get_event_loop().time()` is an ambient impure read; it is passed
  to the dispatcher as an explicit parameter `now`.
-/

/-- JSON-compatible Python values marshalled by the router. -/
inductive Json where
  | null
  | bool (b : Bool)
  | num (q : Rat)
  | str (s : String)
  | arr (xs : List Json)
  | obj (fields : List (String × Json))

/-- Python `d[k]` on a dict: the value, or `KeyError('k')` (whose `str()` is
`'k'` with quotes).  On a non-dict value a `TypeError` is raised; its message
is approximated. -/
def Json.getKey : Json → String → Except String Json
  | .obj fs, k =>
      match fs.lookup k with
      | some v => .ok v
      | none => .error ("'" ++ k ++ "'")
  | _, _ => .error "value is not subscriptable"

/-- Python `d.get(k, default)` on a dict (used for optional arguments). -/
def Json.getKeyD (j : Json) (k : String) (d : Json) : Json :=
  match j with
  | .obj fs => (fs.lookup k).getD d
  | _ => d

/-- Python `list(x)` as used by the `for` loops over argument lists: a list
iterates to its elements; iterating any other value is modelled as a
`TypeError` (message approximated). -/
def Json.asList : Json → Except String (List Json)
  | .arr xs => .ok xs
  | _ => .error "object is not iterable"

/-- Python truthiness (`if filter_conditions:` in `handle_search_vectors`):
`None`, `False`, `0`, `""`, `[]` and `{}` are falsy, everything else truthy. -/
def Json.truthy : Json → Bool
  | .null => false
  | .bool b => b
  | .num q => q != 0
  | .str s => !s.isEmpty
  | .arr xs => !xs.isEmpty
  | .obj fs => !fs.isEmpty

/-- Python `str(x)` as used inside the f-string messages.  Only the string
case is exercised by the claims; the other renderings are approximations. -/
def Json.pyStr : Json → String
  | .str s => s
  | .num q => toString q
  | .bool true => "True"
  | .bool false => "False"
  | .null => "None"
  | .arr _ => "[…]"
  | .obj _ => "\x7b…\x7d"

/-- The argument mapping of a tool call (`arguments: Dict[str, Any]`). -/
abbrev Args : Type := List (String × Json)

/-- `arguments[k]`: the value, or the `KeyError` message `'k'`. -/
def getArg (args : Args) (k : String) : Except String Json :=
  match List.lookup k args with
  | some v => .ok v
  | none => .error ("'" ++ k ++ "'")

/-- `arguments.get(k, default)`. -/
def getArgD (args : Args) (k : String) (d : Json) : Json :=
  (List.lookup k args).getD d

/-- One `types.TextContent` item returned by a handler. -/
inductive Resp where
  | jsonText (j : Json)
  | plainText (t : String)

/-- In this router every failure is rendered as a plain-text message and
every success as a JSON dump, so a plain-text item is exactly an error
response. -/
def Resp.isErrorText : Resp → Bool
  | .plainText _ => true
  | .jsonText _ => false

/-- The `status` field of a response's JSON payload, when there is one. -/
def Resp.envelopeStatus : Resp → Option Json
  | .jsonText (.obj fs) => fs.lookup "status"
  | _ => none

/-- Python `point_id.isdigit()` for the ASCII strings exercised here:
nonempty and all characters are decimal digits. -/
def pyIsDigit (s : String) : Bool :=
  !s.isEmpty && s.toList.all Char.isDigit

/-- Python `int(s)` on a decimal-digit string: its decimal value. -/
def pyInt (s : String) : Nat :=
  s.toList.foldl (fun n c => n * 10 + (c.toNat - 48)) 0

/-- The id-coercion applied by `handle_upsert_vectors`,
`handle_delete_vectors` and `handle_get_vectors`:

```python
if isinstance(point_id, str) and point_id.isdigit():
    point_id = int(point_id)
```
-/
def convertPointId (j : Json) : Json :=
  match j with
  | .str s => if pyIsDigit s then .num (pyInt s : Rat) else .str s
  | _ => j

/-- `models.PointStruct(id=…, vector=…, payload=…)` as marshalled to the
store; the router performs no validation of the vector, so the fields stay
raw `Json`. -/
structure PointStruct where
  id : Json
  vector : Json
  payload : Json

/-- The `UpdateResult` returned by the client's `upsert`/`delete`. -/
structure OpInfo where
  operation_id : Rat
  status : String

/-- One scored hit returned by the client's `search`. -/
structure ScoredPoint where
  id : Json
  score : Rat
  payload : Json

/-- The collection description returned by the client's `get_collection`;
only the fields read by `handle_get_collection_info` are modelled. -/
structure CollectionInfo where
  status : Json
  vectors_count : Json
  indexed_vectors_count : Json
  points_count : Json
  segments_count : Json
  size : Json
  distance : Json

/-- The Vector Store collaborator (the `QdrantClient` methods the router
invokes), over an abstract client state `σ`.  Each operation either returns
a result and a new state, or raises (`Except.error` carries the exception's
message).  Parameters are the raw values the router passes. -/
structure Store (σ : Type) where
  get_collections : σ → Except String (List String × σ)
  create_collection : Json → Json → String → σ → Except String σ
  delete_collection : Json → σ → Except String σ
  get_collection : Json → σ → Except String (CollectionInfo × σ)
  upsert : Json → List PointStruct → σ → Except String (OpInfo × σ)
  search : Json → Json → Json → Json → Option Json → σ →
    Except String (List ScoredPoint × σ)
  delete : Json → List Json → σ → Except String (OpInfo × σ)
  retrieve : Json → List Json → σ → Except String (List PointStruct × σ)

/-- The `distance_map` dict of `handle_create_collection`: maps the distance
string to the client enum (modelled by its name); any other value raises
`KeyError` on the dict lookup. -/
def distanceMap : Json → Except String String
  | .str "Cosine" => .ok "Cosine"
  | .str "Euclid" => .ok "Euclid"
  | .str "Dot" => .ok "Dot"
  | .str s => .error ("'" ++ s ++ "'")
  | j => .error j.pyStr

/-- `handle_list_collections` (lines 277–296). -/
def handle_list_collections (S : Store σ) (s : σ) : List Resp × σ :=
  match S.get_collections s with
  | .ok (cols, s') =>
      ([.jsonText (.obj [("collections", .arr (cols.map Json.str)),
                         ("count", .num (cols.length : Rat))])], s')
  | .error e => ([.plainText ("Error listing collections: " ++ e)], s)

/-- `handle_create_collection` (lines 299–339).  The `VectorParams`
construction is folded into the store call: the router passes `vector_size`
through unvalidated. -/
def handle_create_collection (S : Store σ) (args : Args) (s : σ) :
    List Resp × σ :=
  match (do
      let name ← getArg args "name"
      let vector_size ← getArg args "vector_size"
      let distance := getArgD args "distance" (.str "Cosine")
      let dEnum ← distanceMap distance
      let s' ← S.create_collection name vector_size dEnum s
      pure ((Json.obj [("status", .str "success"),
        ("message",
          .str ("Collection '" ++ name.pyStr ++ "' created successfully")),
        ("collection", .obj [("name", name), ("vector_size", vector_size),
          ("distance", distance)])]), s')
    : Except String (Json × σ)) with
  | .ok (j, s') => ([.jsonText j], s')
  | .error e => ([.plainText ("Error creating collection: " ++ e)], s)

/-- `handle_delete_collection` (lines 342–361). -/
def handle_delete_collection (S : Store σ) (args : Args) (s : σ) :
    List Resp × σ :=
  match (do
      let name ← getArg args "name"
      let s' ← S.delete_collection name s
      pure ((Json.obj [("status", .str "success"),
        ("message",
          .str ("Collection '" ++ name.pyStr ++ "' deleted successfully"))]),
        s')
    : Except String (Json × σ)) with
  | .ok (j, s') => ([.jsonText j], s')
  | .error e => ([.plainText ("Error deleting collection: " ++ e)], s)

/-- `handle_get_collection_info` (lines 364–397). -/
def handle_get_collection_info (S : Store σ) (args : Args) (s : σ) :
    List Resp × σ :=
  match (do
      let name ← getArg args "name"
      let (info, s') ← S.get_collection name s
      pure ((Json.obj [("collection", .obj [
        ("name", name),
        ("status", info.status),
        ("vectors_count", info.vectors_count),
        ("indexed_vectors_count", info.indexed_vectors_count),
        ("points_count", info.points_count),
        ("segments_count", info.segments_count),
        ("config", .obj [("params", .obj [("vectors", .obj [
          ("size", info.size),
          ("distance", info.distance)])])])])]), s')
    : Except String (Json × σ)) with
  | .ok (j, s') => ([.jsonText j], s')
  | .error e => ([.plainText ("Error getting collection info: " ++ e)], s)

/-- The body of the `for vector_data in vectors_data` loop of
`handle_upsert_vectors` (lines 407–418): read the id, coerce a numeral
string to an integer, and build the `PointStruct` with payload defaulting
to `{}`. -/
def mkPointStruct (vd : Json) : Except String PointStruct := do
  let rawId ← vd.getKey "id"
  let v ← vd.getKey "vector"
  pure ⟨convertPointId rawId, v, vd.getKeyD "payload" (.obj [])⟩

/-- `handle_upsert_vectors` (lines 400–440). -/
def handle_upsert_vectors (S : Store σ) (args : Args) (s : σ) :
    List Resp × σ :=
  match (do
      let collection ← getArg args "collection"
      let vectors_data ← (← getArg args "vectors").asList
      let points ← vectors_data.mapM mkPointStruct
      let (info, s') ← S.upsert collection points s
      pure ((Json.obj [("status", .str "success"),
        ("message", .str ("Upserted " ++ toString points.length ++
          " vectors to collection '" ++ collection.pyStr ++ "'")),
        ("operation_id", .num info.operation_id),
        ("status_info", .str info.status)]), s')
    : Except String (Json × σ)) with
  | .ok (j, s') => ([.jsonText j], s')
  | .error e => ([.plainText ("Error upserting vectors: " ++ e)], s)

/-- `handle_search_vectors` (lines 443–493).  `models.Filter(**f)` is passed
through opaquely; the falsy-filter check (`if filter_conditions:`) is the
source's truthiness test. -/
def handle_search_vectors (S : Store σ) (args : Args) (s : σ) :
    List Resp × σ :=
  match (do
      let collection ← getArg args "collection"
      let query_vector ← getArg args "query_vector"
      let limit := getArgD args "limit" (.num 10)
      let score_threshold := getArgD args "score_threshold" (.num 0)
      let query_filter :=
        match List.lookup "filter" args with
        | some f => if f.truthy then some f else none
        | none => none
      let (search_results, s') ←
        S.search collection query_vector limit score_threshold query_filter s
      let results := search_results.map (fun r =>
        Json.obj [("id", r.id), ("score", .num r.score),
          ("payload", r.payload)])
      pure ((Json.obj [("status", .str "success"),
        ("query", .obj [("collection", collection), ("limit", limit),
          ("score_threshold", score_threshold)]),
        ("results", .arr results),
        ("count", .num (results.length : Rat))]), s')
    : Except String (Json × σ)) with
  | .ok (j, s') => ([.jsonText j], s')
  | .error e => ([.plainText ("Error searching vectors: " ++ e)], s)

/-- `handle_delete_vectors` (lines 496–530).  Note the success message uses
`len(ids)` — the number of ids in the request. -/
def handle_delete_vectors (S : Store σ) (args : Args) (s : σ) :
    List Resp × σ :=
  match (do
      let collection ← getArg args "collection"
      let ids ← (← getArg args "ids").asList
      let converted_ids := ids.map convertPointId
      let (info, s') ← S.delete collection converted_ids s
      pure ((Json.obj [("status", .str "success"),
        ("message", .str ("Deleted " ++ toString ids.length ++
          " vectors from collection '" ++ collection.pyStr ++ "'")),
        ("operation_id", .num info.operation_id),
        ("status_info", .str info.status)]), s')
    : Except String (Json × σ)) with
  | .ok (j, s') => ([.jsonText j], s')
  | .error e => ([.plainText ("Error deleting vectors: " ++ e)], s)

/-- `handle_get_vectors` (lines 533–576). -/
def handle_get_vectors (S : Store σ) (args : Args) (s : σ) :
    List Resp × σ :=
  match (do
      let collection ← getArg args "collection"
      let ids ← (← getArg args "ids").asList
      let converted_ids := ids.map convertPointId
      let (points, s') ← S.retrieve collection converted_ids s
      let results := points.map (fun p =>
        Json.obj [("id", p.id), ("vector", p.vector),
          ("payload", p.payload)])
      pure ((Json.obj [("status", .str "success"),
        ("vectors", .arr results),
        ("count", .num (results.length : Rat))]), s')
    : Except String (Json × σ)) with
  | .ok (j, s') => ([.jsonText j], s')
  | .error e => ([.plainText ("Error getting vectors: " ++ e)], s)

/-- `handle_health_check` (lines 579–606): a collaborator failure becomes a
normal JSON response with status `"unhealthy"`, never a plain-text error. -/
def handle_health_check (S : Store σ) (now : Rat) (s : σ) : List Resp × σ :=
  match S.get_collections s with
  | .ok (cols, s') =>
      ([.jsonText (.obj [("status", .str "healthy"),
        ("message", .str "Qdrant connection is working"),
        ("collections_count", .num (cols.length : Rat)),
        ("timestamp", .num now)])], s')
  | .error e =>
      ([.jsonText (.obj [("status", .str "unhealthy"),
        ("message", .str ("Qdrant connection failed: " ++ e)),
        ("timestamp", .num now)])], s)

/-- The fixed catalogue of nine operation names (`handle_list_tools`,
lines 54–236). -/
def toolNames : List String :=
  ["list_collections", "create_collection", "delete_collection",
   "get_collection_info", "upsert_vectors", "search_vectors",
   "delete_vectors", "get_vectors", "health_check"]

/-- `handle_call_tool` (lines 239–274): dispatch by exact name, falling
through to the `Unknown tool` message.  The store handle is a parameter
(`get_qdrant_client()` acquisition is modelled as already done; each
handler catches its own exceptions, so the outer `except` of the source has
no remaining failure source in the model and every call returns). -/
def handle_call_tool (S : Store σ) (name : String) (args : Args)
    (now : Rat) (s : σ) : List Resp × σ :=
  if name = "list_collections" then handle_list_collections S s
  else if name = "create_collection" then handle_create_collection S args s
  else if name = "delete_collection" then handle_delete_collection S args s
  else if name = "get_collection_info" then
    handle_get_collection_info S args s
  else if name = "upsert_vectors" then handle_upsert_vectors S args s
  else if name = "search_vectors" then handle_search_vectors S args s
  else if name = "delete_vectors" then handle_delete_vectors S args s
  else if name = "get_vectors" then handle_get_vectors S args s
  else if name = "health_check" then handle_health_check S now s
  else ([.plainText ("Unknown tool: " ++ name)], s)

/-- One recorded invocation of a store-collaborator operation, carrying the
arguments the router forwarded. -/
inductive StoreCall where
  | get_collections
  | create_collection (name vector_size : Json) (distance : String)
  | delete_collection (name : Json)
  | get_collection (name : Json)
  | upsert (collection : Json) (points : List PointStruct)
  | search (collection query_vector limit score_threshold : Json)
      (query_filter : Option Json)
  | delete (collection : Json) (ids : List Json)
  | retrieve (collection : Json) (ids : List Json)

/-- Placeholder collection description returned by the recording stub. -/
def dummyInfo : CollectionInfo :=
  ⟨.null, .null, .null, .null, .null, .null, .null⟩

/-- A collaborator stub that records every operation invoked together with
the forwarded arguments (the stub suggested by the spec's testable
properties), succeeding with inert data. -/
def tracingStore : Store (List StoreCall) where
  get_collections s := .ok ([], s ++ [.get_collections])
  create_collection n v d s := .ok (s ++ [.create_collection n v d])
  delete_collection n s := .ok (s ++ [.delete_collection n])
  get_collection n s := .ok (dummyInfo, s ++ [.get_collection n])
  upsert c ps s := .ok (⟨0, "completed"⟩, s ++ [.upsert c ps])
  search c q l t f s := .ok ([], s ++ [.search c q l t f])
  delete c ids s := .ok (⟨0, "completed"⟩, s ++ [.delete c ids])
  retrieve c ids s := .ok ([], s ++ [.retrieve c ids])

/-- A collaborator stub every operation of which raises with message `m`
(an unreachable or failing Qdrant endpoint). -/
def throwStore (m : String) : Store Unit where
  get_collections _ := .error m
  create_collection _ _ _ _ := .error m
  delete_collection _ _ := .error m
  get_collection _ _ := .error m
  upsert _ _ _ := .error m
  search _ _ _ _ _ _ := .error m
  delete _ _ _ := .error m
  retrieve _ _ _ := .error m

/-- The durable state of the in-memory store stub: each collection's name
with its stored points. -/
abbrev StoreState : Type := List (String × List PointStruct)

/-- Point-id equality as the store applies it.  Modelled from the spec:
§3 declares a point id to be a string or an integer, so only scalar ids
compare equal. -/
def idMatch : Json → Json → Bool
  | .num a, .num b => a == b
  | .str a, .str b => a == b
  | _, _ => false

/-- Upsert a single point: replace the stored point with the same id, or
append.  Modelled from the spec: §4.1 `upsert_vectors` — "Insert or update
vectors". -/
def upsertOne (pts : List PointStruct) (p : PointStruct) : List PointStruct :=
  if pts.any (fun q => idMatch q.id p.id) then
    pts.map (fun q => if idMatch q.id p.id then p else q)
  else pts ++ [p]

/-- Replace the contents of collection `c`. -/
def updateColl (s : StoreState) (c : String) (pts : List PointStruct) :
    StoreState :=
  s.map (fun e => if e.1 = c then (c, pts) else e)

/-- Modelled from the spec: the Vector Store collaborator itself (the Qdrant
database) is not part of this repository; §1 treats it as an assumed-correct
external black box and §8 asks for round-trip checks against a stub.  This
in-memory stub implements the §4.1 operation contracts the round-trip claims
rely on: upsert inserts or replaces by id, retrieve returns the stored
points whose ids appear in the request ("missing ids silently omitted"),
delete removes exactly the stored points whose ids appear in the request.
`search` ranking is internal to the database and deliberately not modelled
(the search claim is proved for every collaborator satisfying §4.1's ranked
contract). -/
def qdrantStub : Store StoreState where
  get_collections s := .ok (s.map Prod.fst, s)
  create_collection n _ _ s :=
    match n with
    | .str c =>
        if (List.lookup c s).isSome then
          .error ("Collection '" ++ c ++ "' already exists!")
        else .ok (s ++ [(c, [])])
    | _ => .error "invalid collection name"
  delete_collection n s :=
    match n with
    | .str c => .ok (s.filter (fun e => !(e.1 == c)))
    | _ => .error "invalid collection name"
  get_collection n s :=
    match n with
    | .str c =>
        match List.lookup c s with
        | some pts =>
            .ok (⟨.str "green", .num (pts.length : Rat),
              .num (pts.length : Rat), .num (pts.length : Rat), .num 1,
              .null, .null⟩, s)
        | none => .error ("Collection '" ++ c ++ "' not found")
    | _ => .error "invalid collection name"
  upsert n ps s :=
    match n with
    | .str c =>
        match List.lookup c s with
        | some pts =>
            .ok (⟨0, "completed"⟩, updateColl s c (ps.foldl upsertOne pts))
        | none => .error ("Collection '" ++ c ++ "' not found")
    | _ => .error "invalid collection name"
  search _ _ _ _ _ _ := .error "search ranking is not modelled in the stub"
  delete n ids s :=
    match n with
    | .str c =>
        match List.lookup c s with
        | some pts =>
            .ok (⟨0, "completed"⟩, updateColl s c
              (pts.filter (fun p => !(ids.any (fun i => idMatch p.id i)))))
        | none => .error ("Collection '" ++ c ++ "' not found")
    | _ => .error "invalid collection name"
  retrieve n ids s :=
    match n with
    | .str c =>
        match List.lookup c s with
        | some pts =>
            .ok (pts.filter (fun p => ids.any (fun i => idMatch p.id i)), s)
        | none => .error ("Collection '" ++ c ++ "' not found")
    | _ => .error "invalid collection name"

/-! Reduction lemmas for the `Except` monad operations produced by the
`do` blocks of the handlers. -/

theorem ok_bind {α β : Type} (a : α) (f : α → Except String β) :
    (Except.ok a >>= f) = f a := rfl

theorem error_bind {α β : Type} (e : String) (f : α → Except String β) :
    ((Except.error e : Except String α) >>= f) = .error e := rfl

theorem map_ok {α β : Type} (f : α → β) (a : α) :
    (f <$> (Except.ok a : Except String α)) = .ok (f a) := rfl

theorem map_error {α β : Type} (f : α → β) (e : String) :
    (f <$> (Except.error e : Except String α)) = .error e := rfl

/-! Every handler returns exactly one text content item. -/

theorem handle_list_collections_len {σ : Type} (S : Store σ) (s : σ) :
    ((handle_list_collections S s).1).length = 1 := by
  unfold handle_list_collections; split <;> rfl

theorem handle_create_collection_len {σ : Type} (S : Store σ) (args : Args)
    (s : σ) : ((handle_create_collection S args s).1).length = 1 := by
  unfold handle_create_collection; split <;> rfl

theorem handle_delete_collection_len {σ : Type} (S : Store σ) (args : Args)
    (s : σ) : ((handle_delete_collection S args s).1).length = 1 := by
  unfold handle_delete_collection; split <;> rfl

theorem handle_get_collection_info_len {σ : Type} (S : Store σ) (args : Args)
    (s : σ) : ((handle_get_collection_info S args s).1).length = 1 := by
  unfold handle_get_collection_info; split <;> rfl

theorem handle_upsert_vectors_len {σ : Type} (S : Store σ) (args : Args)
    (s : σ) : ((handle_upsert_vectors S args s).1).length = 1 := by
  unfold handle_upsert_vectors; split <;> rfl

theorem handle_search_vectors_len {σ : Type} (S : Store σ) (args : Args)
    (s : σ) : ((handle_search_vectors S args s).1).length = 1 := by
  unfold handle_search_vectors; split <;> rfl

theorem handle_delete_vectors_len {σ : Type} (S : Store σ) (args : Args)
    (s : σ) : ((handle_delete_vectors S args s).1).length = 1 := by
  unfold handle_delete_vectors; split <;> rfl

theorem handle_get_vectors_len {σ : Type} (S : Store σ) (args : Args)
    (s : σ) : ((handle_get_vectors S args s).1).length = 1 := by
  unfold handle_get_vectors; split <;> rfl

theorem handle_health_check_len {σ : Type} (S : Store σ) (now : Rat)
    (s : σ) : ((handle_health_check S now s).1).length = 1 := by
  unfold handle_health_check; split <;> rfl

/-- Dispatch always yields exactly one text content item, whatever the
operation name, arguments and collaborator. -/
theorem handle_call_tool_len {σ : Type} (S : Store σ) (name : String)
    (args : Args) (now : Rat) (s : σ) :
    ((handle_call_tool S name args now s).1).length = 1 := by
  unfold handle_call_tool
  split_ifs <;>
    first
      | exact handle_list_collections_len S s
      | exact handle_create_collection_len S args s
      | exact handle_delete_collection_len S args s
      | exact handle_get_collection_info_len S args s
      | exact handle_upsert_vectors_len S args s
      | exact handle_search_vectors_len S args s
      | exact handle_delete_vectors_len S args s
      | exact handle_get_vectors_len S args s
      | exact handle_health_check_len S now s
      | rfl

/-- C2: for every operation name outside the fixed catalogue of nine, and
any argument mapping, dispatch returns the error text referencing the
unknown name, and the recording collaborator stub observes no operation
call (the recorded trace stays empty); the process does not fail (a value
is always returned). -/
theorem unknown_tool_error_no_store_call (name : String) (args : Args)
    (now : Rat) (h : name ∉ toolNames) :
    handle_call_tool tracingStore name args now [] =
      ([.plainText ("Unknown tool: " ++ name)], []) := by
  simp only [toolNames, List.mem_cons, List.not_mem_nil, or_false,
    not_or] at h
  obtain ⟨h1, h2, h3, h4, h5, h6, h7, h8, h9⟩ := h
  simp [handle_call_tool, h1, h2, h3, h4, h5, h6, h7, h8, h9]

/-- Witness for C2 at the concrete unknown name `"frobnicate"`. -/
theorem unknown_tool_error_no_store_call_witness :
    handle_call_tool tracingStore "frobnicate" [] 0 [] =
      ([.plainText ("Unknown tool: " ++ "frobnicate")], []) :=
  unknown_tool_error_no_store_call "frobnicate" [] 0 (by decide)

/-- C5: for `create_collection`, when `vector_size` is absent from the
argument mapping the router returns a validation-error text and the
recording collaborator stub observes no operation call (in particular its
create-collection operation is never invoked). -/
theorem create_collection_missing_size_no_store_call (args : Args)
    (now : Rat) (h : List.lookup "vector_size" args = none) :
    ∃ e, handle_call_tool tracingStore "create_collection" args now [] =
      ([.plainText ("Error creating collection: " ++ e)], []) := by
  have hd : handle_call_tool tracingStore "create_collection" args now [] =
      handle_create_collection tracingStore args [] := rfl
  rw [hd]
  cases hn : List.lookup "name" args with
  | none =>
      exact ⟨"'name'", by
        simp [handle_create_collection, getArg, hn, ok_bind, error_bind,
          map_ok, map_error]⟩
  | some v =>
      exact ⟨"'vector_size'", by
        simp [handle_create_collection, getArg, hn, h, ok_bind, error_bind,
          map_ok, map_error]⟩

/-- Witness for C5: `name` supplied, `vector_size` omitted. -/
theorem create_collection_missing_size_witness :
    List.lookup "vector_size" [("name", Json.str "c")] = none ∧
    ∃ e, handle_call_tool tracingStore "create_collection"
        [("name", Json.str "c")] 0 [] =
      ([.plainText ("Error creating collection: " ++ e)], []) :=
  ⟨rfl, create_collection_missing_size_no_store_call
    [("name", Json.str "c")] 0 rfl⟩

/-- C6: `health_check` against a collaborator whose `list_collections`
(`get_collections`) raises returns a normal JSON response with status
`"unhealthy"` carrying the failure message; and for every collaborator
whatsoever, `health_check` returns a JSON (success-shaped) response — never
a plain-text error envelope. -/
theorem health_check_unhealthy_never_error :
    (∀ (m : String) (args : Args) (now : Rat),
      handle_call_tool (throwStore m) "health_check" args now () =
        ([.jsonText (.obj [("status", .str "unhealthy"),
          ("message", .str ("Qdrant connection failed: " ++ m)),
          ("timestamp", .num now)])], ())) ∧
    (∀ (σ : Type) (S : Store σ) (s : σ) (args : Args) (now : Rat),
      ∃ j s', handle_call_tool S "health_check" args now s =
        ([.jsonText j], s')) := by
  constructor
  · intro m args now; rfl
  · intro σ S s args now
    have hd : handle_call_tool S "health_check" args now s =
        handle_health_check S now s := rfl
    rw [hd]
    unfold handle_health_check
    cases h : S.get_collections s with
    | ok p => obtain ⟨cols, s'⟩ := p; exact ⟨_, s', rfl⟩
    | error e => exact ⟨_, s, rfl⟩

/-- C4 counterexample: a successful `list_collections` response is a JSON
payload with fields `collections` and `count` only — it carries no `status`
field at all, so the uniform `{status: success|error}` envelope of the
claim is not what the router returns. -/
theorem response_envelope_counterexample :
    handle_call_tool qdrantStub "list_collections" [] 0 [] =
      ([.jsonText (.obj [("collections", .arr []), ("count", .num 0)])],
        []) ∧
    Resp.envelopeStatus
      (.jsonText (.obj [("collections", .arr []), ("count", .num 0)])) =
      none :=
  ⟨rfl, rfl⟩

/-- C4 (amended): every response returned by the router is exactly one text
content item — either an operation-specific JSON success payload (which
does not always carry a `status` field) or a plain-text failure message;
there is no uniform `{status, data, message}` envelope. -/
theorem response_single_text_item (σ : Type) (S : Store σ) (name : String)
    (args : Args) (now : Rat) (s : σ) :
    ((handle_call_tool S name args now s).1).length = 1 :=
  handle_call_tool_len S name args now s

/-- C1 counterexample: for `health_check` with a collaborator that raises
`"boom"`, the dispatcher does not return an error response — it returns a
JSON success-shaped response with status `"unhealthy"` (carrying the
message), so not every caught exception becomes an error response. -/
theorem dispatch_error_policy_counterexample :
    handle_call_tool (throwStore "boom") "health_check" [] 0 () =
      ([.jsonText (.obj [("status", .str "unhealthy"),
        ("message", .str "Qdrant connection failed: boom"),
        ("timestamp", .num 0)])], ()) ∧
    Resp.isErrorText (.jsonText (.obj [("status", .str "unhealthy"),
      ("message", .str "Qdrant connection failed: boom"),
      ("timestamp", .num 0)])) = false :=
  ⟨rfl, rfl⟩

/-- C1 (amended): dispatch always returns a response and never raises; for
the eight operations other than `health_check`, an exception raised by the
store collaborator is converted into an error response carrying the
exception's message verbatim, while for `health_check` it is converted into
an "unhealthy" success-shaped response carrying the message. -/
theorem dispatch_recovers_all_failures :
    (∀ (σ : Type) (S : Store σ) (name : String) (args : Args) (now : Rat)
      (s : σ), ((handle_call_tool S name args now s).1).length = 1) ∧
    (∀ m now, handle_call_tool (throwStore m) "list_collections" [] now () =
      ([.plainText ("Error listing collections: " ++ m)], ())) ∧
    (∀ m now, handle_call_tool (throwStore m) "create_collection"
        [("name", .str "c"), ("vector_size", .num 4)] now () =
      ([.plainText ("Error creating collection: " ++ m)], ())) ∧
    (∀ m now, handle_call_tool (throwStore m) "delete_collection"
        [("name", .str "c")] now () =
      ([.plainText ("Error deleting collection: " ++ m)], ())) ∧
    (∀ m now, handle_call_tool (throwStore m) "get_collection_info"
        [("name", .str "c")] now () =
      ([.plainText ("Error getting collection info: " ++ m)], ())) ∧
    (∀ m now, handle_call_tool (throwStore m) "upsert_vectors"
        [("collection", .str "c"), ("vectors", .arr [.obj [("id", .num 1),
          ("vector", .arr [.num 1])]])] now () =
      ([.plainText ("Error upserting vectors: " ++ m)], ())) ∧
    (∀ m now, handle_call_tool (throwStore m) "search_vectors"
        [("collection", .str "c"), ("query_vector", .arr [])] now () =
      ([.plainText ("Error searching vectors: " ++ m)], ())) ∧
    (∀ m now, handle_call_tool (throwStore m) "delete_vectors"
        [("collection", .str "c"), ("ids", .arr [])] now () =
      ([.plainText ("Error deleting vectors: " ++ m)], ())) ∧
    (∀ m now, handle_call_tool (throwStore m) "get_vectors"
        [("collection", .str "c"), ("ids", .arr [])] now () =
      ([.plainText ("Error getting vectors: " ++ m)], ())) ∧
    (∀ m now, handle_call_tool (throwStore m) "health_check" [] now () =
      ([.jsonText (.obj [("status", .str "unhealthy"),
        ("message", .str ("Qdrant connection failed: " ++ m)),
        ("timestamp", .num now)])], ())) :=
  ⟨fun _ S name args now s => handle_call_tool_len S name args now s,
    fun _ _ => rfl, fun _ _ => rfl, fun _ _ => rfl, fun _ _ => rfl,
    fun _ _ => rfl, fun _ _ => rfl, fun _ _ => rfl, fun _ _ => rfl,
    fun _ _ => rfl⟩

/-- C3: the id coercion — a nonempty decimal-digit string becomes the
corresponding integer, every other string and every non-string id passes
through unchanged — and it is applied identically to the `id` field of each
upserted point and to every entry of the `ids` list of `delete_vectors` and
`get_vectors`, as observed by the recording collaborator stub; in
particular ids `["1", "2", "abc"]` to `get_vectors` are forwarded as
`1, 2, "abc"`. -/
theorem id_coercion_forwarding :
    (∀ s : String, s ≠ "" → (∀ c ∈ s.toList, c.isDigit) →
      convertPointId (.str s) = .num (pyInt s : Rat)) ∧
    (∀ s : String, pyIsDigit s = false → convertPointId (.str s) = .str s) ∧
    (∀ j : Json, (∀ s, j ≠ .str s) → convertPointId j = j) ∧
    (∀ (collection : Json) (ids : List Json) (now : Rat),
      (handle_call_tool tracingStore "get_vectors"
        [("collection", collection), ("ids", .arr ids)] now []).2 =
      [.retrieve collection (ids.map convertPointId)]) ∧
    (∀ (collection : Json) (ids : List Json) (now : Rat),
      (handle_call_tool tracingStore "delete_vectors"
        [("collection", collection), ("ids", .arr ids)] now []).2 =
      [.delete collection (ids.map convertPointId)]) ∧
    (∀ (collection i v p : Json) (now : Rat),
      (handle_call_tool tracingStore "upsert_vectors"
        [("collection", collection), ("vectors", .arr [.obj [("id", i),
          ("vector", v), ("payload", p)]])] now []).2 =
      [.upsert collection [⟨convertPointId i, v, p⟩]]) ∧
    (handle_call_tool tracingStore "get_vectors"
      [("collection", .str "c"),
       ("ids", .arr [.str "1", .str "2", .str "abc"])] 0 []).2 =
    [.retrieve (.str "c") [.num 1, .num 2, .str "abc"]] := by
  refine ⟨?_, ?_, ?_, ?_, ?_, ?_, ?_⟩
  · intro s hne hdig
    have hemp : s.isEmpty = false := by
      cases h : s.isEmpty with
      | false => rfl
      | true => exact absurd ((String.isEmpty_iff s).mp h) hne
    have : pyIsDigit s = true := by
      simp [pyIsDigit, List.all_eq_true, hemp]
      exact hdig
    simp [convertPointId, this]
  · intro s h; simp [convertPointId, h]
  · intro j h
    cases j with
    | str s => exact absurd rfl (h s)
    | _ => rfl
  · intro collection ids now; rfl
  · intro collection ids now; rfl
  · intro collection i v p now; rfl
  · rfl

/-- Witness for C3 at the concrete ids of the spec's example. -/
theorem id_coercion_forwarding_witness :
    convertPointId (.str "42") = .num (pyInt "42" : Rat) ∧
    convertPointId (.str "abc") = .str "abc" ∧
    convertPointId (.num 7) = .num 7 ∧
    (handle_call_tool tracingStore "get_vectors"
      [("collection", .str "c"),
       ("ids", .arr [.str "1", .str "2", .str "abc"])] 0 []).2 =
    [.retrieve (.str "c") [.num 1, .num 2, .str "abc"]] :=
  ⟨id_coercion_forwarding.1 "42" (by decide) (by decide),
   id_coercion_forwarding.2.1 "abc" (by decide),
   id_coercion_forwarding.2.2.1 (.num 7) (by intro s h; cases h),
   id_coercion_forwarding.2.2.2.2.2.2⟩

/-- C7: for `search_vectors` — with the effective limit `N` being the
`limit` argument or its default `10`, and the threshold defaulting to `0` —
whenever the collaborator's ranked search result has at most `N` entries
with non-increasing scores, the router's response lists exactly those
results (so its length is at most `N` and its scores are non-increasing
from first to last). -/
theorem search_results_bounded_and_sorted (σ : Type) (S : Store σ)
    (s s' : σ) (args : Args) (collection query_vector : Json) (N : Nat)
    (results : List ScoredPoint) (now : Rat)
    (hc : List.lookup "collection" args = some collection)
    (hq : List.lookup "query_vector" args = some query_vector)
    (hl : getArgD args "limit" (.num 10) = .num (N : Rat))
    (hs : S.search collection query_vector (.num (N : Rat))
        (getArgD args "score_threshold" (.num 0))
        (match List.lookup "filter" args with
          | some f => if f.truthy then some f else none
          | none => none) s = .ok (results, s'))
    (hlen : results.length ≤ N)
    (hsorted : results.Chain' (fun a b => b.score ≤ a.score)) :
    handle_call_tool S "search_vectors" args now s =
      ([.jsonText (.obj [("status", .str "success"),
        ("query", .obj [("collection", collection),
          ("limit", .num (N : Rat)),
          ("score_threshold", getArgD args "score_threshold" (.num 0))]),
        ("results", .arr (results.map (fun r => Json.obj [("id", r.id),
          ("score", .num r.score), ("payload", r.payload)]))),
        ("count", .num (results.length : Rat))])], s') ∧
    (results.map (fun r => Json.obj [("id", r.id), ("score", .num r.score),
      ("payload", r.payload)])).length ≤ N ∧
    (results.map ScoredPoint.score).Chain' (fun a b => b ≤ a) := by
  have h1 : getArg args "collection" = .ok collection := by
    simp [getArg, hc]
  have h2 : getArg args "query_vector" = .ok query_vector := by
    simp [getArg, hq]
  have hd : handle_call_tool S "search_vectors" args now s =
      handle_search_vectors S args s := rfl
  refine ⟨?_, ?_, ?_⟩
  · rw [hd]
    unfold handle_search_vectors
    simp only [h1, h2, hl, ok_bind, error_bind, map_ok, map_error, hs,
      List.length_map, pure, Except.pure]
  · simpa using hlen
  · exact (List.chain'_map ScoredPoint.score).mpr hsorted

/-- A collaborator returning a fixed ranked search result (two hits,
descending scores), used to witness the search contract. -/
def rankedWitnessStore : Store Unit where
  get_collections _ := .error "unused"
  create_collection _ _ _ _ := .error "unused"
  delete_collection _ _ := .error "unused"
  get_collection _ _ := .error "unused"
  upsert _ _ _ := .error "unused"
  search _ _ _ _ _ _ :=
    .ok ([⟨.num 1, 9 / 10, .obj []⟩, ⟨.num 2, 1 / 2, .obj []⟩], ())
  delete _ _ _ := .error "unused"
  retrieve _ _ _ := .error "unused"

/-- The ranked list `rankedWitnessStore.search` returns. -/
def rankedResults : List ScoredPoint :=
  [⟨.num 1, 9 / 10, .obj []⟩, ⟨.num 2, 1 / 2, .obj []⟩]

/-- Arguments of the witness search call (`limit` and `score_threshold`
omitted, exercising the defaults `10` and `0`). -/
def searchWitnessArgs : Args :=
  [("collection", .str "c"), ("query_vector", .arr [])]

/-- Witness for C7 at a concrete collaborator, with both defaults. -/
theorem search_results_bounded_and_sorted_witness :
    handle_call_tool rankedWitnessStore "search_vectors" searchWitnessArgs
      0 () =
      ([.jsonText (.obj [("status", .str "success"),
        ("query", .obj [("collection", .str "c"),
          ("limit", .num ((10 : Nat) : Rat)),
          ("score_threshold",
            getArgD searchWitnessArgs "score_threshold" (.num 0))]),
        ("results", .arr (rankedResults.map (fun r =>
          Json.obj [("id", r.id), ("score", .num r.score),
            ("payload", r.payload)]))),
        ("count", .num (rankedResults.length : Rat))])], ()) ∧
    (rankedResults.map (fun r => Json.obj [("id", r.id),
      ("score", .num r.score), ("payload", r.payload)])).length ≤ 10 ∧
    (rankedResults.map ScoredPoint.score).Chain' (fun a b => b ≤ a) :=
  search_results_bounded_and_sorted Unit rankedWitnessStore () ()
    searchWitnessArgs (.str "c") (.arr []) 10 rankedResults 0
    rfl rfl rfl rfl (by decide)
    (by simp [rankedResults, List.chain'_cons]; norm_num)

/-- Looking a collection up after its contents were replaced. -/
theorem lookup_updateColl (s : StoreState) (c : String)
    (pts q : List PointStruct) (h : List.lookup c s = some q) :
    List.lookup c (updateColl s c pts) = some pts := by
  induction s with
  | nil => simp [List.lookup] at h
  | cons e t ih =>
      obtain ⟨n, v⟩ := e
      have hstep : updateColl ((n, v) :: t) c pts =
          (if n = c then (c, pts) else (n, v)) :: updateColl t c pts := rfl
      rw [hstep]
      by_cases hce : n = c
      · rw [if_pos hce]
        simp [List.lookup]
      · rw [if_neg hce]
        have hne : (c == n) = false := by
          simp
          exact fun hh => hce hh.symm
        simp only [List.lookup, hne] at h ⊢
        exact ih h

/-- The vector and payload of the round-trip point of C8. -/
def rtVector : Json := .arr (List.replicate 128 (.num 0.1))

/-- Arguments of the round-trip upsert: one point of id `"42"`, vector
`[0.1]*128`, payload `{"text": "x"}`. -/
def rtUpsertArgs : Args :=
  [("collection", .str "c"),
   ("vectors", .arr [.obj [("id", .str "42"), ("vector", rtVector),
     ("payload", .obj [("text", .str "x")])]])]

/-- Arguments of the round-trip get: ids `["42"]`. -/
def rtGetArgs : Args := [("collection", .str "c"), ("ids", .arr [.str "42"])]

/-- The point as the router forwards it to the store (the numeral-string id
has become the integer `42`). -/
def rtPoint : PointStruct := ⟨.num 42, rtVector, .obj [("text", .str "x")]⟩

/-- C8: on any store state whose collection `"c"` holds no point of id `42`,
`upsert_vectors` with the single point id `"42"`, vector `[0.1]*128`,
payload `{"text":"x"}` succeeds, and a subsequent `get_vectors` with ids
`["42"]` returns exactly one record whose vector and payload are exactly
the upserted values. -/
theorem upsert_get_round_trip (s : StoreState) (pts : List PointStruct)
    (now : Rat) (hc : List.lookup "c" s = some pts)
    (hid : ∀ p ∈ pts, idMatch p.id (.num 42) = false) :
    handle_call_tool qdrantStub "upsert_vectors" rtUpsertArgs now s =
      ([.jsonText (.obj [("status", .str "success"),
        ("message", .str "Upserted 1 vectors to collection 'c'"),
        ("operation_id", .num 0), ("status_info", .str "completed")])],
        updateColl s "c" (pts ++ [rtPoint])) ∧
    (handle_call_tool qdrantStub "get_vectors" rtGetArgs now
        (updateColl s "c" (pts ++ [rtPoint]))).1 =
      [.jsonText (.obj [("status", .str "success"),
        ("vectors", .arr [.obj [("id", .num 42), ("vector", rtVector),
          ("payload", .obj [("text", .str "x")])]]),
        ("count", .num 1)])] := by
  have hany : pts.any (fun q => idMatch q.id rtPoint.id) = false := by
    rw [List.any_eq_false]
    intro p hp
    simp [show rtPoint.id = Json.num 42 from rfl, hid p hp]
  have hop : qdrantStub.upsert (.str "c") [rtPoint] s =
      .ok (⟨0, "completed"⟩, updateColl s "c" (pts ++ [rtPoint])) := by
    simp [qdrantStub, hc, upsertOne, hany]
  have hfil : (pts ++ [rtPoint]).filter
      (fun p => [Json.num 42].any (fun i => idMatch p.id i)) = [rtPoint] := by
    rw [List.filter_append]
    have h1 : pts.filter
        (fun p => [Json.num 42].any (fun i => idMatch p.id i)) = [] := by
      rw [List.filter_eq_nil_iff]
      intro p hp
      simp [hid p hp]
    rw [h1]
    rfl
  have hlook : List.lookup "c" (updateColl s "c" (pts ++ [rtPoint])) =
      some (pts ++ [rtPoint]) := lookup_updateColl s "c" (pts ++ [rtPoint])
      pts hc
  have hret : qdrantStub.retrieve (.str "c") [Json.num 42]
      (updateColl s "c" (pts ++ [rtPoint])) =
      .ok ([rtPoint], updateColl s "c" (pts ++ [rtPoint])) := by
    simp only [qdrantStub, hlook]
    rw [hfil]
  constructor
  · have hd : handle_call_tool qdrantStub "upsert_vectors" rtUpsertArgs
        now s = handle_upsert_vectors qdrantStub rtUpsertArgs s := rfl
    rw [hd]
    unfold handle_upsert_vectors
    simp only [show getArg rtUpsertArgs "collection" =
        .ok (.str "c") from rfl,
      show getArg rtUpsertArgs "vectors" = .ok (.arr [.obj [("id", .str "42"),
        ("vector", rtVector), ("payload", .obj [("text", .str "x")])]])
        from rfl,
      show (Json.arr [.obj [("id", .str "42"), ("vector", rtVector),
        ("payload", .obj [("text", .str "x")])]]).asList =
        .ok [.obj [("id", .str "42"), ("vector", rtVector),
          ("payload", .obj [("text", .str "x")])]] from rfl,
      show ([Json.obj [("id", .str "42"), ("vector", rtVector),
        ("payload", .obj [("text", .str "x")])]]).mapM mkPointStruct =
        .ok [rtPoint] from rfl,
      hop, ok_bind, map_ok, pure, Except.pure]
    rfl
  · have hd : handle_call_tool qdrantStub "get_vectors" rtGetArgs now
        (updateColl s "c" (pts ++ [rtPoint])) =
        handle_get_vectors qdrantStub rtGetArgs
          (updateColl s "c" (pts ++ [rtPoint])) := rfl
    rw [hd]
    unfold handle_get_vectors
    simp only [show getArg rtGetArgs "collection" = .ok (.str "c") from rfl,
      show getArg rtGetArgs "ids" = .ok (.arr [.str "42"]) from rfl,
      show (Json.arr [.str "42"]).asList = .ok [.str "42"] from rfl,
      show ([Json.str "42"]).map convertPointId = [Json.num 42] from rfl,
      hret, ok_bind, map_ok, pure, Except.pure]
    rfl

/-- Witness for C8 starting from an empty collection `"c"`. -/
theorem upsert_get_round_trip_witness :
    handle_call_tool qdrantStub "upsert_vectors" rtUpsertArgs 0
        [("c", [])] =
      ([.jsonText (.obj [("status", .str "success"),
        ("message", .str "Upserted 1 vectors to collection 'c'"),
        ("operation_id", .num 0), ("status_info", .str "completed")])],
        updateColl [("c", [])] "c" ([] ++ [rtPoint])) ∧
    (handle_call_tool qdrantStub "get_vectors" rtGetArgs 0
        (updateColl [("c", [])] "c" ([] ++ [rtPoint]))).1 =
      [.jsonText (.obj [("status", .str "success"),
        ("vectors", .arr [.obj [("id", .num 42), ("vector", rtVector),
          ("payload", .obj [("text", .str "x")])]]),
        ("count", .num 1)])] :=
  upsert_get_round_trip [("c", [])] [] 0 rfl (by intro p hp; cases hp)

/-- The store state of the C9 counterexample: collection `"c"` holds a
single point of id `1`. -/
def delCexState : StoreState :=
  [("c", [⟨.num 1, .arr [.num 1], .obj []⟩])]

/-- The delete request of the C9 counterexample: ids `["1", "2"]`, of which
only `"1"` exists in the store. -/
def delCexArgs : Args :=
  [("collection", .str "c"), ("ids", .arr [.str "1", .str "2"])]

/-- C9 counterexample: deleting ids `["1", "2"]` from a collection holding
only point `1` removes exactly one vector from the store, yet the success
message reports "Deleted 2 vectors" — the reported figure is the request
size, not the count of vectors deleted from the store. -/
theorem delete_count_counterexample :
    (handle_call_tool qdrantStub "delete_vectors" delCexArgs 0
        delCexState).1 =
      [.jsonText (.obj [("status", .str "success"),
        ("message", .str "Deleted 2 vectors from collection 'c'"),
        ("operation_id", .num 0), ("status_info", .str "completed")])] ∧
    ((List.lookup "c" delCexState).getD []).length = 1 ∧
    ((List.lookup "c" ((handle_call_tool qdrantStub "delete_vectors"
      delCexArgs 0 delCexState).2)).getD []).length = 0 ∧
    (2 : Nat) ≠ 1 - 0 :=
  ⟨rfl, rfl, rfl, by decide⟩

/-- C9 (amended): for `delete_vectors` on an existing collection, the
success result reports the number of ids in the request (which may differ
from the number of vectors actually removed from the store). -/
theorem delete_reports_requested_count (s : StoreState)
    (pts : List PointStruct) (c : String) (ids : List Json) (now : Rat)
    (hc : List.lookup c s = some pts) :
    (handle_call_tool qdrantStub "delete_vectors"
        [("collection", .str c), ("ids", .arr ids)] now s).1 =
      [.jsonText (.obj [("status", .str "success"),
        ("message", .str ("Deleted " ++ toString ids.length ++
          " vectors from collection '" ++ c ++ "'")),
        ("operation_id", .num 0), ("status_info", .str "completed")])] := by
  have hd : handle_call_tool qdrantStub "delete_vectors"
      [("collection", .str c), ("ids", .arr ids)] now s =
      handle_delete_vectors qdrantStub
        [("collection", .str c), ("ids", .arr ids)] s := rfl
  rw [hd]
  unfold handle_delete_vectors
  have h1 : getArg [("collection", Json.str c), ("ids", Json.arr ids)]
      "collection" = .ok (.str c) := rfl
  have h2 : getArg [("collection", Json.str c), ("ids", Json.arr ids)]
      "ids" = .ok (.arr ids) := rfl
  have hdel : qdrantStub.delete (.str c) (ids.map convertPointId) s =
      .ok (⟨0, "completed"⟩, updateColl s c
        (pts.filter (fun p => !((ids.map convertPointId).any
          (fun i => idMatch p.id i))))) := by
    simp [qdrantStub, hc]
  simp only [h1, h2, show (Json.arr ids).asList = .ok ids from rfl,
    hdel, ok_bind, map_ok, pure, Except.pure]
  rfl

/-- Witness for C9's amended claim: two requested ids against a one-point
collection still reports "Deleted 2". -/
theorem delete_reports_requested_count_witness :
    (handle_call_tool qdrantStub "delete_vectors"
        [("collection", .str "c"),
         ("ids", .arr [.str "1", .str "2"])] 0 delCexState).1 =
      [.jsonText (.obj [("status", .str "success"),
        ("message", .str ("Deleted " ++
          toString ([Json.str "1", Json.str "2"].length) ++
          " vectors from collection '" ++ "c" ++ "'")),
        ("operation_id", .num 0), ("status_info", .str "completed")])] :=
  delete_reports_requested_count delCexState
    [⟨.num 1, .arr [.num 1], .obj []⟩] "c" [.str "1", .str "2"] 0 rfl

/-- C10: a point whose `payload` field is omitted is forwarded to the store
with the empty payload mapping `{}` (observed in the recording stub's
trace, for every id and vector), and a subsequent `get_vectors` on a store
that kept that point returns payload `{}` rather than no payload. -/
theorem omitted_payload_defaults_to_empty :
    (∀ (collection i v : Json) (now : Rat),
      (handle_call_tool tracingStore "upsert_vectors"
        [("collection", collection),
         ("vectors", .arr [.obj [("id", i), ("vector", v)]])] now []).2 =
      [.upsert collection [⟨convertPointId i, v, .obj []⟩]]) ∧
    (handle_call_tool qdrantStub "get_vectors"
        [("collection", .str "c"), ("ids", .arr [.str "7"])] 0
        ((handle_call_tool qdrantStub "upsert_vectors"
          [("collection", .str "c"),
           ("vectors", .arr [.obj [("id", .str "7"),
             ("vector", .arr [.num 1])]])] 0 [("c", [])]).2)).1 =
      [.jsonText (.obj [("status", .str "success"),
        ("vectors", .arr [.obj [("id", .num 7),
          ("vector", .arr [.num 1]), ("payload", .obj [])]]),
        ("count", .num 1)])] :=
  ⟨fun _ _ _ _ => rfl, rfl⟩
